import Mathlib

/-!
Shallow embedding of the call-session lifecycle controller of the
twilio-ph-call-client repository, and of its reservation scheduling guard.

The controller is the `useTwilioVoice` hook (src/unnamed/part_000): it owns
the signaling device, the active-call handle, token refresh scheduling and
the canonical call-status state machine.  The guard is the deadline and
recovery logic of `ReservationList.tsx`.  Each definition below is a direct
translation of the corresponding source function; source line numbers are
given in the doc comments.
-/

/-- Call status values of the controller state machine (spec section 4.1;
the `callStatus` field of the hook state, part_000 lines 40-56 and the
transitions throughout).  `open_` renders the source value "open", which is
a reserved word in Lean. -/
inductive CallStatus where
  | closed
  | initializing
  | ready
  | connecting
  | ringing
  | pending
  | open_
  | reconnecting
  | error
deriving DecidableEq, Repr

/-- Status of a provider-native call session, as reported by the provider
handle's `status()` method; `cleanupCallResources` (part_000 line 73) only
distinguishes "closed" from everything else. -/
inductive SessionStatus where
  | closed
  | connecting
  | pending
  | ringing
  | open_
  | reconnecting
deriving DecidableEq, Repr

/-- A provider-native call session handle (the value held in
`activeCallRef.current`, part_000 line 59): an identifier plus the status
its `status()` method reports. -/
structure Session where
  id : Nat
  status : SessionStatus
deriving DecidableEq, Repr

/-- Combined controller state: the React hook state record (part_000 lines
40-56) together with the mutable refs that matter to the claims: the
active-call handle (`activeCallRef`, line 59) and whether a provider device
exists (`deviceRef`, line 58). -/
structure ControllerState where
  identity : String
  callStatus : CallStatus
  error : String
  isMuted : Bool
  isInitialized : Bool
  callInfo : String
  remoteIdentity : String
  activeCall : Option Session
  device : Bool
deriving DecidableEq, Repr

/-- The initial hook state (part_000 lines 48-56): status `closed`, empty
strings, no session, no device. -/
def initialControllerState : ControllerState :=
  { identity := ""
    callStatus := CallStatus.closed
    error := ""
    isMuted := false
    isInitialized := false
    callInfo := ""
    remoteIdentity := ""
    activeCall := none
    device := false }

/-- Source `updateCallStatus` (part_000 lines 137-146): writes the status and info
fields and clears the error field exactly when the new status is "ready". -/
def updateCallStatus (c : ControllerState) (status : CallStatus) (info : String) :
    ControllerState :=
  { c with
    callStatus := status
    callInfo := info
    error := if status = CallStatus.ready then "" else c.error }

/-- Source `handleError` (part_000 lines 125-135): records a prefixed error
message and moves the status to `error`. -/
def handleError (c : ControllerState) (pfx : String) (msg : String) :
    ControllerState :=
  { c with error := pfx ++ ": " ++ msg, callStatus := CallStatus.error }

/-- External actions and raised errors observable from a controller
operation, in source order: `disconnected` is `call.disconnect()` inside
cleanup, `audioReleased` the audio release, `cleanupRun` marks a call of
`cleanupCallResources`, `raised m` an `Error(m)` thrown, `accepted` /
`rejected` / `hungUp` / `muted` the provider-handle calls of the four call
operations. -/
inductive CtlEvent where
  | disconnected (id : Nat)
  | audioReleased
  | cleanupRun
  | raised (msg : String)
  | accepted
  | rejected
  | hungUp
  | muted (b : Bool)
deriving DecidableEq, Repr

/-- Source `cleanupCallResources` (part_000 lines 68-101).  With a session handle
present: disconnect it if its status is not "closed", release device audio
when a device exists, clear the handle.  In every case reset the mute flag
and the remote-identity field.  All provider calls are wrapped in
try/catch in the source, so the operation itself never raises; the event
list records the provider calls it makes (and contains no `raised`). -/
def cleanupCallResources (c : ControllerState) : ControllerState × List CtlEvent :=
  match c.activeCall with
  | some call =>
      let evs :=
        (if call.status ≠ SessionStatus.closed then [CtlEvent.disconnected call.id] else [])
        ++ (if c.device then [CtlEvent.audioReleased] else [])
      ({ c with activeCall := none, isMuted := false, remoteIdentity := "" }, evs)
  | none =>
      ({ c with isMuted := false, remoteIdentity := "" }, [])

/-- Source `extractClientIdentity` (part_000 lines 201-210): strip a "client:"
prefix, else use the From value verbatim, else "unknown" when empty. -/
def extractClientIdentity (fromParam : String) : String :=
  if fromParam.startsWith "client:" then fromParam.drop 7
  else if fromParam = "" then "unknown" else fromParam

/-- Session lifecycle events handled by `setupCallListeners`
(part_000 lines 212-268). -/
inductive SessionEvent where
  | ringing
  | accept
  | err
  | warning
  | reconnecting
  | reconnected
  | disconnect
  | cancel
  | reject
deriving DecidableEq, Repr

/-- A session event is terminal when its handler tears the session down:
`disconnect`, `cancel`, `reject` (part_000 lines 250-265) and `error`
(lines 226-232). -/
def SessionEvent.isTerminal : SessionEvent → Bool
  | SessionEvent.err => true
  | SessionEvent.disconnect => true
  | SessionEvent.cancel => true
  | SessionEvent.reject => true
  | _ => false

/-- The listener body `setupCallListeners` installs for each session event
(part_000 lines 212-268), as a state transformer plus the delay in
milliseconds of the `setTimeout` the handler schedules, when it schedules
one.  Every scheduled timeout in the source runs
`updateCallStatus("ready", "")` (lines 231 and 261-263); `payload` is the
error / warning argument rendered to a string. -/
def onSessionEvent (c : ControllerState) (e : SessionEvent) (payload : String) :
    ControllerState × Option Nat :=
  match e with
  | SessionEvent.ringing => (updateCallStatus c CallStatus.ringing "Ringing...", none)
  | SessionEvent.accept => (updateCallStatus c CallStatus.open_ "Connected", none)
  | SessionEvent.err =>
      ((cleanupCallResources (handleError c "Call error" payload)).1, some 500)
  | SessionEvent.warning => ({ c with callInfo := "Warning: " ++ payload }, none)
  | SessionEvent.reconnecting =>
      (updateCallStatus c CallStatus.reconnecting ("Reconnecting: " ++ payload), none)
  | SessionEvent.reconnected => (updateCallStatus c CallStatus.open_ "Call reconnected", none)
  | SessionEvent.disconnect =>
      ((cleanupCallResources (updateCallStatus c CallStatus.closed "Call ended")).1, some 300)
  | SessionEvent.cancel =>
      ((cleanupCallResources (updateCallStatus c CallStatus.closed "Call rejected")).1, some 300)
  | SessionEvent.reject =>
      ((cleanupCallResources (updateCallStatus c CallStatus.closed "Call rejected")).1, some 300)

/-- The body of every settle timeout scheduled by a session-event handler:
`updateCallStatus("ready", "")` (part_000 lines 231 and 262). -/
def settle (c : ControllerState) : ControllerState :=
  updateCallStatus c CallStatus.ready ""

/-- Call kinds accepted by `makeCall` (part_000 line 414). -/
inductive CallType where
  | direct
  | phone
deriving DecidableEq, Repr

/-- Destination formatting in `makeCall` (part_000 lines 430-437); the
source binds the argument as `to`, a reserved word in Lean, rendered
`dest` here. -/
def formatDestination (dest : String) (ct : CallType) : String :=
  match ct with
  | CallType.phone => dest
  | CallType.direct => if dest.startsWith "client:" then dest else "client:" ++ dest

/-- Micro-step trace of `makeCall` (part_000 lines 413-460): the controller
state after each mutating statement, starting from the entry state.
`connectResult` is the outcome of `device.connect` (`Except.error` also
covers the null-call check of lines 447-449, whose throw is handled by the
same catch block).  Without a device the operation throws before mutating
anything (line 415). -/
def makeCallTrace (c : ControllerState) (dest : String) (ct : CallType)
    (connectResult : Except String Session) : List ControllerState :=
  if c.device = false then [c]
  else
    let c1 := (cleanupCallResources c).1
    let info := match ct with
      | CallType.phone => "Calling number " ++ dest ++ "..."
      | CallType.direct => "Calling " ++ dest ++ "..."
    let c2 := updateCallStatus c1 CallStatus.connecting info
    let c3 := { c2 with remoteIdentity := dest }
    match connectResult with
    | Except.ok call =>
        [c, c1, c2, c3, { c3 with activeCall := some call }]
    | Except.error msg =>
        let c4 := (cleanupCallResources c3).1
        let c5 := updateCallStatus c4 CallStatus.ready ""
        let c6 := handleError c5 "Error making call" msg
        [c, c1, c2, c3, c4, c5, c6]

/-- Final controller state of `makeCall`: the last state of its trace. -/
def makeCall (c : ControllerState) (dest : String) (ct : CallType)
    (connectResult : Except String Session) : ControllerState :=
  (makeCallTrace c dest ct connectResult).getLastD c

/-- Micro-step trace of the `device.on("incoming")` handler installed by
`initialize` (part_000 lines 342-358): cleanup, store the new handle,
record the remote identity, move to `pending`. -/
def incomingTrace (c : ControllerState) (incomingCall : Session) (fromParam : String) :
    List ControllerState :=
  let c1 := (cleanupCallResources c).1
  let c2 := { c1 with activeCall := some incomingCall }
  let callerIdentity := extractClientIdentity fromParam
  let c3 := { c2 with remoteIdentity := callerIdentity }
  let c4 := updateCallStatus c3 CallStatus.pending ("From: " ++ callerIdentity)
  [c, c1, c2, c3, c4]

/-- Source `checkActiveCall` (part_000 lines 148-151) throws this message when no
session handle exists. -/
def noActiveCallMsg : String := "No active call"

/-- Source `answerCall` (part_000 lines 471-480): accept the checked active call;
when `checkActiveCall` throws, the catch block runs `handleError` then
`cleanupCallResources`. -/
def answerCall (c : ControllerState) : ControllerState × List CtlEvent :=
  match c.activeCall with
  | some _ => (c, [CtlEvent.accepted])
  | none =>
      let c1 := handleError c "Failed to answer call" noActiveCallMsg
      let (c2, evs) := cleanupCallResources c1
      (c2, [CtlEvent.raised noActiveCallMsg, CtlEvent.cleanupRun] ++ evs)

/-- Source `rejectCall` (part_000 lines 482-490): same shape as `answerCall`. -/
def rejectCall (c : ControllerState) : ControllerState × List CtlEvent :=
  match c.activeCall with
  | some _ => (c, [CtlEvent.rejected])
  | none =>
      let c1 := handleError c "Failed to reject call" noActiveCallMsg
      let (c2, evs) := cleanupCallResources c1
      (c2, [CtlEvent.raised noActiveCallMsg, CtlEvent.cleanupRun] ++ evs)

/-- Source `endCall` (part_000 lines 492-500): same shape as `answerCall`. -/
def endCall (c : ControllerState) : ControllerState × List CtlEvent :=
  match c.activeCall with
  | some _ => (c, [CtlEvent.hungUp])
  | none =>
      let c1 := handleError c "Failed to end call" noActiveCallMsg
      let (c2, evs) := cleanupCallResources c1
      (c2, [CtlEvent.raised noActiveCallMsg, CtlEvent.cleanupRun] ++ evs)

/-- Source `toggleMute` (part_000 lines 502-512): flip the mute flag through the
provider handle; when `checkActiveCall` throws, the catch block runs only
`handleError` — unlike the other three operations it does not call
`cleanupCallResources`. -/
def toggleMute (c : ControllerState) : ControllerState × List CtlEvent :=
  match c.activeCall with
  | some _ =>
      let newMuteState := !c.isMuted
      ({ c with isMuted := newMuteState }, [CtlEvent.muted newMuteState])
  | none =>
      (handleError c "Failed to toggle mute" noActiveCallMsg,
       [CtlEvent.raised noActiveCallMsg])

/-- Reservation status values (src/src/types/reservation.ts lines 14-18). -/
inductive ReservationStatus where
  | scheduled
  | ongoing
  | completed
  | cancelled
deriving DecidableEq, Repr

/-- A call reservation (src/src/types/reservation.ts lines 1-12).
`reservationDate` is a YYYY-MM-DD string, `startTime` / `endTime` are
HH:MM strings; `phoneNumber` and `callDuration` are nullable. -/
structure CallReservation where
  id : Nat
  username : String
  reservationDate : String
  startTime : String
  endTime : String
  status : ReservationStatus
  phoneNumber : Option String
  callDuration : Option Nat
  createdAt : String
  updatedAt : String
deriving DecidableEq, Repr

/-- The reservation store visible through the Reservation Store Client:
the list of reservations of the current user. -/
abbrev Store := List CallReservation

/-- Source `updateReservation` (src/src/utils/reservationApi.ts lines 86-104)
restricted to the status-only payload used by `handleStartCall` and its
revert path: a PUT that rewrites the status of the reservation with the
given id. -/
def updateStatus (store : Store) (rid : Nat) (st : ReservationStatus) : Store :=
  List.map (fun r => if r.id = rid then { r with status := st } else r) store

/-- Source `updateReservation` with the `{status, callDuration}` payload used by
`endReservationCall` and the refresh-recovery path: rewrites status and
call duration of the reservation with the given id. -/
def updateStatusDuration (store : Store) (rid : Nat) (st : ReservationStatus)
    (dur : Nat) : Store :=
  List.map
    (fun r => if r.id = rid then { r with status := st, callDuration := some dur } else r)
    store

/-- Source `endReservationCall` (src/src/utils/reservationApi.ts lines 122-131):
clamp the duration at zero and PUT `{status: completed, callDuration}`. -/
def endReservationCall (store : Store) (rid : Nat) (duration : Nat) : Store :=
  updateStatusDuration store rid ReservationStatus.completed
    (if duration > 0 then duration else 0)

/-- A wall-clock instant as the guard reads it: the UTC calendar day
(`now.toISOString().split("T")[0]`) plus hours, minutes and seconds of the
day. -/
structure Wall where
  date : String
  hour : Nat
  minute : Nat
  second : Nat
deriving DecidableEq, Repr

/-- Seconds since local midnight of a wall-clock instant. -/
def wallSeconds (w : Wall) : Nat :=
  w.hour * 3600 + w.minute * 60 + w.second

/-- Split a character list on a separator character, the semantics of the
JavaScript `split` with a one-character separator. -/
def splitOnChar (sep : Char) : List Char → List (List Char)
  | [] => [[]]
  | c :: rest =>
      let r := splitOnChar sep rest
      if c = sep then [] :: r
      else
        match r with
        | g :: gs => (c :: g) :: gs
        | [] => [[c]]

def charsToNatAux : List Char → Nat → Option Nat
  | [], acc => some acc
  | c :: cs, acc =>
      if c.isDigit then charsToNatAux cs (acc * 10 + (c.toNat - 48)) else none

/-- Decimal value of a nonempty digit string, the semantics of the
JavaScript `Number` on the digit fields of an HH:MM time. -/
def charsToNat? : List Char → Option Nat
  | [] => none
  | c :: cs => charsToNatAux (c :: cs) 0

/-- Parse an HH:MM string the way `checkEndTime` does
(`endTime.split(":").map(Number)`, ReservationList.tsx lines 180 and
220-222); times are well-formed HH:MM per the data model. -/
def parseHM (t : String) : Nat × Nat :=
  match splitOnChar ':' t.toList with
  | h :: m :: _ => ((charsToNat? h).getD 0, (charsToNat? m).getD 0)
  | _ => (0, 0)

/-- The deadline comparison of `checkEndTime` and of the 1-second duration
tick (ReservationList.tsx lines 176-184 and 216-226): `endTimeDate` is
today at `endTime` with seconds and milliseconds zeroed, and the guard
fires when `now >= endTimeDate`, which on the same calendar day is a
comparison of seconds since midnight. -/
def deadlineReached (r : CallReservation) (now : Wall) : Bool :=
  now.date = r.reservationDate &&
    wallSeconds now ≥ (parseHM r.endTime).1 * 3600 + (parseHM r.endTime).2 * 60

/-- Source `checkEndTime` (ReservationList.tsx lines 168-188): with an active
call bound to a reservation of the list whose date is today, report
whether the end-of-call branch (`endCall(); cleanupCall(true)`) fires. -/
def checkEndTime (activeCall : Option Nat) (reservations : Store) (now : Wall) : Bool :=
  match activeCall with
  | none => false
  | some rid =>
      match List.find? (fun r => r.id = rid) reservations with
      | none => false
      | some r => deadlineReached r now

/-- Mutable guard state of `ReservationList` relevant to the claims: the
`activeCall` state/ref pair, the duration accumulator and start timestamp,
whether the 1-second timer is armed, and the recovery flags
(ReservationList.tsx lines 22-40). -/
structure GuardState where
  activeCall : Option Nat
  callDuration : Nat
  duration : Nat
  callStartTime : Option Nat
  callTimer : Bool
  recoveredFromRefresh : Bool
  hasInitiallyLoaded : Bool
deriving DecidableEq, Repr

/-- Source `cleanupCall(true)` (ReservationList.tsx lines 91-127, save branch):
clear the duration timer, PUT the bound reservation `completed` with the
accumulated duration (clamped at zero), and reset every call-related
field. -/
def cleanupCallSave (g : GuardState) (store : Store) : GuardState × Store :=
  let store1 :=
    match g.activeCall with
    | some rid => endReservationCall store rid (if g.duration > 0 then g.duration else 0)
    | none => store
  ({ g with
      activeCall := none
      callDuration := 0
      duration := 0
      callStartTime := none
      callTimer := false }, store1)

/-- Poll cadence of the deadline check: `setInterval(checkEndTime, 5000)`
(ReservationList.tsx line 191). -/
def CHECK_END_TIME_INTERVAL_MS : Nat := 5000

/-- Tick cadence of the duration timer that also re-checks the deadline
while the call is open: `window.setInterval(..., 1000)`
(ReservationList.tsx line 234). -/
def CALL_TIMER_TICK_MS : Nat := 1000

/-- One firing of the deadline poll (ReservationList.tsx lines 165-193):
the effect runs only while the controller status is "open" and an active
call is bound; when `checkEndTime` fires it ends the call and runs
`cleanupCall(true)`.  Returns the new guard state, the new store, and
whether `endCall()` was issued. -/
def deadlinePollTick (g : GuardState) (store : Store) (now : Wall)
    (callStatus : CallStatus) : GuardState × Store × Bool :=
  if callStatus = CallStatus.open_ && checkEndTime g.activeCall store now then
    let (g1, store1) := cleanupCallSave g store
    (g1, store1, true)
  else
    (g, store, false)

/-- Source `recoverFromRefresh` (ReservationList.tsx lines 253-279), success
path: runs once when the device becomes initialized; if the store reports
a reservation with status "ongoing", PUT it `completed` with
`callDuration || 0`, and set the recovery flag. -/
def recoverFromRefresh (g : GuardState) (store : Store) (isInitialized : Bool) :
    GuardState × Store :=
  if g.hasInitiallyLoaded || !isInitialized then (g, store)
  else
    match List.find? (fun r => r.status = ReservationStatus.ongoing) store with
    | some r =>
        ({ g with recoveredFromRefresh := true, hasInitiallyLoaded := true },
         updateStatusDuration store r.id ReservationStatus.completed
           (r.callDuration.getD 0))
    | none =>
        ({ g with hasInitiallyLoaded := true }, store)

/-- Observable steps of `handleStartCall`, in execution order: reservation
store writes, the dial attempt (`makeCall`), and `alert` calls. -/
inductive GuardEvent where
  | storeWrite (rid : Nat) (st : ReservationStatus)
  | dial (phone : String)
  | alerted (msg : String)
deriving DecidableEq, Repr

/-- Source `handleStartCall` (ReservationList.tsx lines 320-359).  `initOk` is
the outcome of the lazy `initialize` attempt (only consulted when the
device is not yet initialized), `dialOk` the outcome of the awaited
`makeCall`, `nowMs` the value of `Date.now()`.  Without a phone number,
or when initialization fails, the handler alerts and returns untouched.
Otherwise it PUTs the reservation "ongoing", binds the active call, and
dials; on dial failure the inner catch PUTs the reservation back to
"scheduled", unbinds the call, alerts, and rethrows into the outer catch,
which clears the start timestamp. -/
def handleStartCall (g : GuardState) (store : Store) (r : CallReservation)
    (isInitialized : Bool) (initOk : Bool) (dialOk : Bool) (nowMs : Nat) :
    GuardState × Store × List GuardEvent :=
  match r.phoneNumber with
  | none => (g, store, [GuardEvent.alerted "No phone number provided for this reservation"])
  | some phone =>
      if !isInitialized && !initOk then
        (g, store, [GuardEvent.alerted "Could not initialize call device. Please try again."])
      else
        let store1 := updateStatus store r.id ReservationStatus.ongoing
        let g1 := { g with
          activeCall := some r.id
          callDuration := 0
          duration := 0
          callStartTime := some nowMs }
        if dialOk then
          (g1, store1,
           [GuardEvent.storeWrite r.id ReservationStatus.ongoing, GuardEvent.dial phone])
        else
          let store2 := updateStatus store1 r.id ReservationStatus.scheduled
          let g2 := { g1 with activeCall := none, callStartTime := none }
          (g2, store2,
           [GuardEvent.storeWrite r.id ReservationStatus.ongoing, GuardEvent.dial phone,
            GuardEvent.storeWrite r.id ReservationStatus.scheduled,
            GuardEvent.alerted "Failed to establish call. Please try again."])

/-- JavaScript string comparison (code-unit lexicographic order), used by
`isCallTimeValid` to compare HH:MM strings
(ReservationList.tsx lines 398-402). -/
def strLeAux : List Char → List Char → Bool
  | [], _ => true
  | _ :: _, [] => false
  | a :: as, b :: bs =>
      if a < b then true else if b < a then false else strLeAux as bs

/-- JavaScript `a <= b` on strings. -/
def strLe (a b : String) : Bool := strLeAux a.toList b.toList

/-- Source `padStart(2, "0")` on a rendered number (ReservationList.tsx lines
390-393). -/
def pad2 (n : Nat) : String :=
  if n < 10 then "0" ++ toString n else toString n

/-- The current HH:MM string `isCallTimeValid` builds from the clock
(ReservationList.tsx lines 390-393). -/
def currentTimeStr (w : Wall) : String :=
  pad2 w.hour ++ ":" ++ pad2 w.minute

/-- Source `isCallTimeValid` (ReservationList.tsx lines 383-403): a reservation
may start a call only when no call is active, its date is today, its
status is "scheduled" (or "ongoing" right after a refresh recovery), and
the current HH:MM lies between `startTime` and `endTime` inclusive under
JavaScript string comparison. -/
def isCallTimeValid (activeCall : Option Nat) (recoveredFromRefresh : Bool)
    (now : Wall) (r : CallReservation) : Bool :=
  match activeCall with
  | some _ => false
  | none =>
      if r.reservationDate ≠ now.date then false
      else
        let cur := currentTimeStr now
        let validStatus :=
          r.status = ReservationStatus.scheduled ||
            (r.status = ReservationStatus.ongoing && recoveredFromRefresh)
        validStatus && strLe r.startTime cur && strLe cur r.endTime

/-- Source `TOKEN_REFRESH_INTERVAL` (part_000 line 37): 59 minutes in
milliseconds. -/
def TOKEN_REFRESH_INTERVAL : Nat := 59 * 60 * 1000

/-- The backoff delay of the failure branch of `setupTokenRefresh`
(part_000 line 194). -/
def REFRESH_FAILURE_BACKOFF_MS : Nat := 60000

/-- What the pending token-refresh timer does when it fires:
`refreshAttempt` is the timer armed by `setupTokenRefresh` itself
(part_000 line 177), whose callback fetches a new credential; `rearm` is
the timer armed by the failure branch (line 192), whose callback only
calls `setupTokenRefresh` again and fetches nothing. -/
inductive TimerKind where
  | refreshAttempt
  | rearm
deriving DecidableEq, Repr

/-- The single pending token-refresh timer (`tokenRefreshTimerRef`): its
delay in milliseconds and what its callback does. -/
structure PendingTimer where
  delay : Nat
  kind : TimerKind
deriving DecidableEq, Repr

/-- Source `setupTokenRefresh` (part_000 lines 171-199): clears any pending
timer and arms a refresh attempt one full `TOKEN_REFRESH_INTERVAL` away. -/
def setupTokenRefresh : PendingTimer :=
  { delay := TOKEN_REFRESH_INTERVAL, kind := TimerKind.refreshAttempt }

/-- Whether the timer's callback performs a credential fetch when it
fires: only the `refreshAttempt` callback calls `getToken`
(part_000 line 180). -/
def firesFetch : PendingTimer → Bool
  | { kind := TimerKind.refreshAttempt, .. } => true
  | { kind := TimerKind.rearm, .. } => false

/-- Firing the pending timer (part_000 lines 177-196).  A refresh attempt
that succeeds pushes the token and calls `setupTokenRefresh` again; one
that fails arms the 60 s backoff timer, whose own callback merely calls
`setupTokenRefresh`.  `fetchOk` is the outcome of the fetch and is ignored
by the `rearm` callback, which performs no fetch. -/
def fireTimer (p : PendingTimer) (fetchOk : Bool) : PendingTimer :=
  match p.kind with
  | TimerKind.refreshAttempt =>
      if fetchOk then setupTokenRefresh
      else { delay := REFRESH_FAILURE_BACKOFF_MS, kind := TimerKind.rearm }
  | TimerKind.rearm => setupTokenRefresh

/-- The atomic hook-state mutations of part_000, one constructor per
distinct `setState`-reaching call shape in the source: `cleanupFields` is
the update of `cleanupCallResources` (line 100), `handleErr` the body of
`handleError` (line 131), `setStatus` the body of `updateCallStatus`
(lines 139-143), `initStart` / `initDone` / `initFail` the three updates
of `initialize` (lines 273-277, 367, 384-388), `setRemote` the
remote-identity writes of the incoming handler and `makeCall` (lines 354
and 428), `setInfo` the warning handler (line 236), `setMuted` the
`toggleMute` update (line 508), and `setHandle` the `activeCallRef`
assignments (lines 95, 347, 451). -/
inductive UpdateOp where
  | cleanupFields
  | handleErr (pfx : String) (msg : String)
  | setStatus (s : CallStatus) (info : String)
  | initStart (idy : String)
  | initDone
  | initFail (msg : String)
  | setRemote (r : String)
  | setInfo (i : String)
  | setMuted (b : Bool)
  | setHandle (h : Option Session)
deriving DecidableEq, Repr

/-- Effect of one atomic mutation on the controller state. -/
def applyOp (c : ControllerState) : UpdateOp → ControllerState
  | UpdateOp.cleanupFields => { c with isMuted := false, remoteIdentity := "" }
  | UpdateOp.handleErr pfx msg => handleError c pfx msg
  | UpdateOp.setStatus s info => updateCallStatus c s info
  | UpdateOp.initStart idy =>
      { c with identity := idy, error := "", callStatus := CallStatus.initializing }
  | UpdateOp.initDone => { c with isInitialized := true }
  | UpdateOp.initFail msg =>
      { c with error := msg, callStatus := CallStatus.error, isInitialized := false }
  | UpdateOp.setRemote r => { c with remoteIdentity := r }
  | UpdateOp.setInfo i => { c with callInfo := i }
  | UpdateOp.setMuted b => { c with isMuted := b }
  | UpdateOp.setHandle h => { c with activeCall := h }

/-- Controller state reached from the initial hook state by a sequence of
atomic mutations: the reachable states of the controller. -/
def runOps (l : List UpdateOp) : ControllerState :=
  List.foldl applyOp initialControllerState l

/-- The session handle is never replaced in one step while a previous
session is still held: along the trace, a state holding a handle is
followed only by the same handle or by no handle. -/
def NoOverwrite (trace : List ControllerState) : Prop :=
  List.Chain'
    (fun a b => a.activeCall ≠ none → b.activeCall = a.activeCall ∨ b.activeCall = none)
    trace

/-- A registered, initialized controller at rest (status "ready", device
present, no session), used as a concrete probe state. -/
def sampleReady : ControllerState :=
  { initialControllerState with
    identity := "alice"
    callStatus := CallStatus.ready
    isInitialized := true
    device := true }

/-- A probe state with no session handle but a stale mute flag and remote
identity, to observe whether an operation runs cleanup. -/
def sampleMuted : ControllerState :=
  { sampleReady with isMuted := true, remoteIdentity := "bob" }

/-- The reservation of the spec scenario: id 7, 10:00-10:05, scheduled,
with a phone number. -/
def res7 : CallReservation :=
  { id := 7
    username := "alice"
    reservationDate := "2026-10-12"
    startTime := "10:00"
    endTime := "10:05"
    status := ReservationStatus.scheduled
    phoneNumber := some "+15551234567"
    callDuration := none
    createdAt := ""
    updatedAt := "" }

/-- A controller with an open session in progress, used as a concrete
probe state. -/
def sampleInCall : ControllerState :=
  { sampleReady with
    callStatus := CallStatus.open_
    activeCall := some { id := 1, status := SessionStatus.open_ }
    remoteIdentity := "+15551234567" }

/-- Guard state with no active call and no initial load performed, used
as a concrete probe state. -/
def idleGuard : GuardState :=
  { activeCall := none
    callDuration := 0
    duration := 0
    callStartTime := none
    callTimer := false
    recoveredFromRefresh := false
    hasInitiallyLoaded := false }

theorem cleanup_activeCall_none (c : ControllerState) :
    (cleanupCallResources c).1.activeCall = none := by
  cases h : c.activeCall <;> simp [cleanupCallResources, h]

theorem cleanup_fst (c : ControllerState) :
    (cleanupCallResources c).1 =
      { c with activeCall := none, isMuted := false, remoteIdentity := "" } := by
  cases c with
  | mk idy st er mu ini inf rem act dev => cases act <;> simp [cleanupCallResources]

theorem find?_map_update (f : CallReservation → CallReservation)
    (hf : ∀ x, (f x).id = x.id) (rid : Nat) :
    ∀ (store : List CallReservation) (r : CallReservation),
      List.find? (fun x => x.id = rid) store = some r →
      List.find? (fun x => x.id = rid)
        (List.map (fun x => if x.id = rid then f x else x) store) = some (f r) := by
  intro store
  induction store with
  | nil => intro r h; simp at h
  | cons a l ih =>
      intro r h
      by_cases ha : a.id = rid
      · rw [@List.find?_cons_of_pos CallReservation (fun x => decide (x.id = rid)) a l
          (by simp [ha])] at h
        injection h with h
        subst h
        simp only [List.map_cons, if_pos ha]
        rw [@List.find?_cons_of_pos CallReservation (fun x => decide (x.id = rid)) (f a)
          (List.map (fun x => if x.id = rid then f x else x) l) (by simp [hf, ha])]
      · rw [@List.find?_cons_of_neg CallReservation (fun x => decide (x.id = rid)) a l
          (by simp [ha])] at h
        simp only [List.map_cons, if_neg ha]
        rw [@List.find?_cons_of_neg CallReservation (fun x => decide (x.id = rid)) a
          (List.map (fun x => if x.id = rid then f x else x) l) (by simp [ha])]
        exact ih r h

theorem mem_map_update_of_ne (f : CallReservation → CallReservation) (rid : Nat)
    (x : CallReservation) (store : List CallReservation)
    (hx : x ∈ store) (hne : x.id ≠ rid) :
    x ∈ List.map (fun y => if y.id = rid then f y else y) store := by
  have h := List.mem_map_of_mem (fun y => if y.id = rid then f y else y) hx
  simpa [hne] using h

/-- Claim C9: with no session handle present, `cleanupCallResources` makes
no provider call and raises nothing (empty event list) and changes nothing
except forcing the mute flag to false and the remote identity to empty;
running it twice in a row gives the same state and again no events, so it
is idempotent and safe with no active session. -/
theorem cleanup_idempotent_no_session (c : ControllerState)
    (h : c.activeCall = none) :
    cleanupCallResources c = ({ c with isMuted := false, remoteIdentity := "" }, []) ∧
    cleanupCallResources (cleanupCallResources c).1 =
      ((cleanupCallResources c).1, []) := by
  constructor
  · simp [cleanupCallResources, h]
  · simp [cleanupCallResources, h]

theorem cleanup_idempotent_no_session_witness :
    sampleMuted.activeCall = none ∧
    (cleanupCallResources sampleMuted =
        ({ sampleMuted with isMuted := false, remoteIdentity := "" }, []) ∧
      cleanupCallResources (cleanupCallResources sampleMuted).1 =
        ((cleanupCallResources sampleMuted).1, [])) :=
  ⟨rfl, cleanup_idempotent_no_session sampleMuted rfl⟩

/-- Claim C8 (evidence of the code bug): after a failed refresh attempt
the pending timer is the 60 s backoff timer, whose callback performs no
credential fetch — it only re-arms the full 59-minute refresh timer — so
the first fetch after a failure happens 60000 + 3540000 = 3600000 ms
later, not approximately 60 s after the failure as the spec states. -/
theorem token_refresh_backoff_behavior :
    firesFetch (fireTimer setupTokenRefresh false) = false ∧
    (fireTimer setupTokenRefresh false).delay = REFRESH_FAILURE_BACKOFF_MS ∧
    fireTimer (fireTimer setupTokenRefresh false) true = setupTokenRefresh ∧
    firesFetch setupTokenRefresh = true ∧
    (fireTimer setupTokenRefresh false).delay +
        (fireTimer (fireTimer setupTokenRefresh false) true).delay = 3600000 := by
  decide

/-- Claim C1: every path that establishes a new session handle — the
outbound `makeCall` and the provider `incoming` handler — first runs
`cleanupCallResources` (the state right after the first step is the
cleanup result, whose handle is empty), and along both micro-step traces
a held session handle is never replaced by a different one in a single
step. -/
theorem session_cleanup_before_new_session :
    (∀ (c : ControllerState) (dest : String) (ct : CallType)
        (res : Except String Session),
      NoOverwrite (makeCallTrace c dest ct res) ∧
      (c.device = true →
        (makeCallTrace c dest ct res).get? 1 = some (cleanupCallResources c).1)) ∧
    (∀ (c : ControllerState) (call : Session) (fromParam : String),
      NoOverwrite (incomingTrace c call fromParam) ∧
      (incomingTrace c call fromParam).get? 1 = some (cleanupCallResources c).1 ∧
      (cleanupCallResources c).1.activeCall = none) := by
  constructor
  · intro c dest ct res
    cases hd : c.device
    · constructor
      · simp [NoOverwrite, makeCallTrace, hd]
      · intro h; simp at h
    · constructor
      · cases res <;>
          simp [NoOverwrite, makeCallTrace, hd, List.chain'_cons,
            cleanup_fst, updateCallStatus, handleError]
      · intro _
        cases res <;> simp [makeCallTrace, hd]
  · intro c call fromParam
    refine ⟨?_, by simp [incomingTrace], cleanup_activeCall_none c⟩
    simp [NoOverwrite, incomingTrace, List.chain'_cons, cleanup_fst, updateCallStatus]

theorem session_cleanup_before_new_session_witness :
    sampleInCall.device = true ∧
    ((makeCallTrace sampleInCall "+15559876543" CallType.phone
        (Except.ok { id := 2, status := SessionStatus.connecting })).get? 1 =
      some (cleanupCallResources sampleInCall).1) :=
  ⟨rfl,
    (session_cleanup_before_new_session.1 sampleInCall "+15559876543" CallType.phone
      (Except.ok { id := 2, status := SessionStatus.connecting })).2 rfl⟩

/-- Claim C2, counterexample: a failed `makeCall` does not return the
controller to "ready".  The catch block of `makeCall` runs
`cleanupCallResources()`, then `updateCallStatus("ready")`, then
`handleError(...)` — in that order — so the final status is "error", and
`makeCall` schedules no later transition, contradicting the claim that
every failed makeCall attempt eventually returns the status to "ready". -/
theorem makeCall_failure_stays_error_counterexample :
    (makeCall sampleReady "+15551234567" CallType.phone
        (Except.error "ConnectionError")).callStatus = CallStatus.error ∧
    (makeCall sampleReady "+15551234567" CallType.phone
        (Except.error "ConnectionError")).callStatus ≠ CallStatus.ready := by
  decide

/-- Claim C2 as amended: for every provider terminal session event
(disconnect, cancel, reject, error) the handler schedules a settle timeout
(300 ms, or 500 ms for error), passes through a transient "closed" or
"error" status, and once the timeout body runs the status is "ready", the
error message is cleared and the session handle is null.  For a failed
`makeCall`, cleanup runs and the handle is null afterward, but the status
is left at "error" with the error message surfaced ("ready" is written
only transiently before `handleError` overwrites it). -/
theorem terminal_fault_recovery_amended :
    (∀ (c : ControllerState) (e : SessionEvent) (p : String),
      e.isTerminal = true →
      ((onSessionEvent c e p).2 = some 300 ∨ (onSessionEvent c e p).2 = some 500) ∧
      (settle (onSessionEvent c e p).1).callStatus = CallStatus.ready ∧
      (settle (onSessionEvent c e p).1).error = "" ∧
      (settle (onSessionEvent c e p).1).activeCall = none ∧
      ((onSessionEvent c e p).1.callStatus = CallStatus.closed ∨
        (onSessionEvent c e p).1.callStatus = CallStatus.error)) ∧
    (∀ (c : ControllerState) (dest msg : String) (ct : CallType),
      c.device = true →
      (makeCall c dest ct (Except.error msg)).activeCall = none ∧
      (makeCall c dest ct (Except.error msg)).callStatus = CallStatus.error ∧
      (makeCall c dest ct (Except.error msg)).error = "Error making call" ++ ": " ++ msg) := by
  constructor
  · intro c e p ht
    cases e <;> simp [SessionEvent.isTerminal] at ht <;>
      simp [onSessionEvent, settle, cleanup_fst, updateCallStatus, handleError]
  · intro c dest msg ct hd
    simp [makeCall, makeCallTrace, hd, cleanup_fst, updateCallStatus, handleError]

theorem terminal_fault_recovery_amended_witness :
    (SessionEvent.disconnect.isTerminal = true ∧
      ((onSessionEvent sampleInCall SessionEvent.disconnect "").2 = some 300 ∨
        (onSessionEvent sampleInCall SessionEvent.disconnect "").2 = some 500) ∧
      (settle (onSessionEvent sampleInCall SessionEvent.disconnect "").1).callStatus =
        CallStatus.ready ∧
      (settle (onSessionEvent sampleInCall SessionEvent.disconnect "").1).error = "" ∧
      (settle (onSessionEvent sampleInCall SessionEvent.disconnect "").1).activeCall = none ∧
      ((onSessionEvent sampleInCall SessionEvent.disconnect "").1.callStatus =
          CallStatus.closed ∨
        (onSessionEvent sampleInCall SessionEvent.disconnect "").1.callStatus =
          CallStatus.error)) ∧
    (sampleReady.device = true ∧
      (makeCall sampleReady "+15551234567" CallType.phone
          (Except.error "ConnectionError")).activeCall = none ∧
      (makeCall sampleReady "+15551234567" CallType.phone
          (Except.error "ConnectionError")).callStatus = CallStatus.error ∧
      (makeCall sampleReady "+15551234567" CallType.phone
          (Except.error "ConnectionError")).error =
        "Error making call" ++ ": " ++ "ConnectionError") :=
  ⟨⟨rfl, terminal_fault_recovery_amended.1 sampleInCall SessionEvent.disconnect "" rfl⟩,
   ⟨rfl, terminal_fault_recovery_amended.2 sampleReady "+15551234567" "ConnectionError"
      CallType.phone rfl⟩⟩

/-- Claim C7, counterexample: invoking `toggleMute` with no session handle
raises "No active call" but — unlike answer/reject/end — its catch block
performs no cleanup: the stale mute flag and remote identity survive. -/
theorem toggleMute_no_cleanup_counterexample :
    (toggleMute sampleMuted).2 = [CtlEvent.raised noActiveCallMsg] ∧
    CtlEvent.cleanupRun ∉ (toggleMute sampleMuted).2 ∧
    (toggleMute sampleMuted).1.isMuted = true ∧
    (toggleMute sampleMuted).1.remoteIdentity = "bob" := by
  decide

/-- Claim C7 as amended: with no session handle, `answerCall`,
`rejectCall` and `endCall` each raise the "No active call" error and
follow it with forced cleanup of call resources; `toggleMute` raises the
same error and surfaces it through `handleError`, but performs no
cleanup, leaving the mute flag untouched. -/
theorem no_active_session_handling_amended (c : ControllerState)
    (h : c.activeCall = none) :
    (answerCall c).2 = [CtlEvent.raised noActiveCallMsg, CtlEvent.cleanupRun] ∧
    (rejectCall c).2 = [CtlEvent.raised noActiveCallMsg, CtlEvent.cleanupRun] ∧
    (endCall c).2 = [CtlEvent.raised noActiveCallMsg, CtlEvent.cleanupRun] ∧
    (toggleMute c).2 = [CtlEvent.raised noActiveCallMsg] ∧
    (answerCall c).1 =
      (cleanupCallResources (handleError c "Failed to answer call" noActiveCallMsg)).1 ∧
    (rejectCall c).1 =
      (cleanupCallResources (handleError c "Failed to reject call" noActiveCallMsg)).1 ∧
    (endCall c).1 =
      (cleanupCallResources (handleError c "Failed to end call" noActiveCallMsg)).1 ∧
    (toggleMute c).1 = handleError c "Failed to toggle mute" noActiveCallMsg ∧
    (toggleMute c).1.isMuted = c.isMuted := by
  refine ⟨?_, ?_, ?_, ?_, ?_, ?_, ?_, ?_, ?_⟩ <;>
    simp [answerCall, rejectCall, endCall, toggleMute, h, cleanupCallResources, handleError]

theorem no_active_session_handling_amended_witness :
    sampleMuted.activeCall = none ∧
    (answerCall sampleMuted).2 = [CtlEvent.raised noActiveCallMsg, CtlEvent.cleanupRun] ∧
    (toggleMute sampleMuted).2 = [CtlEvent.raised noActiveCallMsg] ∧
    (toggleMute sampleMuted).1.isMuted = sampleMuted.isMuted :=
  ⟨rfl,
    (no_active_session_handling_amended sampleMuted rfl).1,
    (no_active_session_handling_amended sampleMuted rfl).2.2.2.1,
    (no_active_session_handling_amended sampleMuted rfl).2.2.2.2.2.2.2.2⟩

theorem applyOp_ready_clean (c : ControllerState) (op : UpdateOp)
    (h : c.callStatus = CallStatus.ready → c.error = "") :
    (applyOp c op).callStatus = CallStatus.ready → (applyOp c op).error = "" := by
  cases op with
  | cleanupFields => simpa [applyOp] using h
  | handleErr pfx msg => simp [applyOp, handleError]
  | setStatus s info =>
      intro hs
      simp [applyOp, updateCallStatus] at hs ⊢
      simp [hs]
  | initStart idy => simp [applyOp]
  | initDone => simpa [applyOp] using h
  | initFail msg => simp [applyOp]
  | setRemote r => simpa [applyOp] using h
  | setInfo i => simpa [applyOp] using h
  | setMuted b => simpa [applyOp] using h
  | setHandle hnd => simpa [applyOp] using h

theorem foldl_ready_clean :
    ∀ (l : List UpdateOp) (c : ControllerState),
      (c.callStatus = CallStatus.ready → c.error = "") →
      ((List.foldl applyOp c l).callStatus = CallStatus.ready →
        (List.foldl applyOp c l).error = "") := by
  intro l
  induction l with
  | nil => intro c h; simpa using h
  | cons op rest ih =>
      intro c h
      simp only [List.foldl_cons]
      exact ih (applyOp c op) (applyOp_ready_clean c op h)

/-- Claim C10: every controller state reachable from the initial hook
state by the atomic mutations of the source satisfies the invariant that
a "ready" call status implies an empty error message; and the canonical
status updater clears the error field exactly when the new status is
"ready". -/
theorem ready_implies_no_error :
    (∀ (l : List UpdateOp),
      (runOps l).callStatus = CallStatus.ready → (runOps l).error = "") ∧
    (∀ (c : ControllerState) (s : CallStatus) (info : String),
      (updateCallStatus c s info).error =
        if s = CallStatus.ready then "" else c.error) := by
  constructor
  · intro l
    exact foldl_ready_clean l initialControllerState
      (by intro h; simp [initialControllerState] at h)
  · intro c s info
    simp [updateCallStatus]

theorem ready_implies_no_error_witness :
    (runOps [UpdateOp.handleErr "Call error" "boom",
        UpdateOp.setStatus CallStatus.ready ""]).callStatus = CallStatus.ready ∧
    (runOps [UpdateOp.handleErr "Call error" "boom",
        UpdateOp.setStatus CallStatus.ready ""]).error = "" :=
  ⟨rfl,
    ready_implies_no_error.1
      [UpdateOp.handleErr "Call error" "boom", UpdateOp.setStatus CallStatus.ready ""] rfl⟩

theorem isCallTimeValid_eq_true_iff (a : Option Nat) (rcv : Bool) (now : Wall)
    (r : CallReservation) :
    isCallTimeValid a rcv now r = true ↔
      (a = none ∧ r.reservationDate = now.date ∧
        (r.status = ReservationStatus.scheduled ∨
          (r.status = ReservationStatus.ongoing ∧ rcv = true)) ∧
        strLe r.startTime (currentTimeStr now) = true ∧
        strLe (currentTimeStr now) r.endTime = true) := by
  cases a with
  | some k => simp [isCallTimeValid]
  | none =>
      by_cases hd : r.reservationDate = now.date
      · simp [isCallTimeValid, hd, Bool.and_eq_true, Bool.or_eq_true,
          decide_eq_true_eq, and_assoc]
      · simp [isCallTimeValid, hd]

/-- Claim C4: a reservation is eligible to start a call iff no other call
is active, its date equals today, its status is "scheduled" (or "ongoing"
right after a completed refresh recovery), and the current HH:MM string
lies within [startTime, endTime] inclusive; in particular the scenario
reservation (10:00-10:05, scheduled, today) is eligible at 10:04 and not
at 10:06, for any value of today. -/
theorem call_eligibility :
    (∀ (a : Option Nat) (rcv : Bool) (now : Wall) (r : CallReservation),
      isCallTimeValid a rcv now r = true ↔
        (a = none ∧ r.reservationDate = now.date ∧
          (r.status = ReservationStatus.scheduled ∨
            (r.status = ReservationStatus.ongoing ∧ rcv = true)) ∧
          strLe r.startTime (currentTimeStr now) = true ∧
          strLe (currentTimeStr now) r.endTime = true)) ∧
    (∀ (d : String),
      isCallTimeValid none false { date := d, hour := 10, minute := 4, second := 0 }
        { res7 with reservationDate := d } = true) ∧
    (∀ (d : String),
      isCallTimeValid none false { date := d, hour := 10, minute := 6, second := 0 }
        { res7 with reservationDate := d } = false) := by
  refine ⟨isCallTimeValid_eq_true_iff, ?_, ?_⟩
  · intro d
    rw [isCallTimeValid_eq_true_iff]
    refine ⟨rfl, rfl, Or.inl rfl, ?_, ?_⟩ <;>
      · simp only [res7, currentTimeStr]
        decide
  · intro d
    rw [Bool.eq_false_iff, Ne, isCallTimeValid_eq_true_iff]
    intro h
    obtain ⟨-, -, -, -, hle⟩ := h
    revert hle
    simp only [res7, currentTimeStr]
    decide

/-- Claim C3: when the reservation bound to the active call has
today's date and the wall clock has reached its end time while the call
is open, the deadline poll fires: `endCall()` is issued, the guard
unbinds the call, and the store marks the reservation "completed" with
the accumulated duration (clamped at zero); the poll runs every 5000 ms
plus a 1000 ms tick while the call is open, so this happens within one
poll interval of the deadline. -/
theorem deadline_enforcement (g : GuardState) (store : Store) (now : Wall)
    (r : CallReservation)
    (hact : g.activeCall = some r.id)
    (hfind : List.find? (fun x => x.id = r.id) store = some r)
    (hdate : now.date = r.reservationDate)
    (htime : wallSeconds now ≥ (parseHM r.endTime).1 * 3600 + (parseHM r.endTime).2 * 60) :
    (deadlinePollTick g store now CallStatus.open_).2.2 = true ∧
    List.find? (fun x => x.id = r.id) (deadlinePollTick g store now CallStatus.open_).2.1 =
      some { r with
        status := ReservationStatus.completed
        callDuration := some (if g.duration > 0 then g.duration else 0) } ∧
    (deadlinePollTick g store now CallStatus.open_).1.activeCall = none ∧
    CHECK_END_TIME_INTERVAL_MS = 5000 ∧ CALL_TIMER_TICK_MS = 1000 := by
  have hcheck : checkEndTime g.activeCall store now = true := by
    simp [checkEndTime, hact, hfind, deadlineReached, hdate, htime]
  have hg : deadlinePollTick g store now CallStatus.open_ =
      ((cleanupCallSave g store).1, (cleanupCallSave g store).2, true) := by
    simp [deadlinePollTick, hcheck]
  have hs : (cleanupCallSave g store).2 =
      endReservationCall store r.id (if g.duration > 0 then g.duration else 0) := by
    simp [cleanupCallSave, hact]
  have hclamp : endReservationCall store r.id (if g.duration > 0 then g.duration else 0) =
      updateStatusDuration store r.id ReservationStatus.completed
        (if g.duration > 0 then g.duration else 0) := by
    by_cases hdur : g.duration > 0 <;> simp [endReservationCall, hdur]
  have h2 := find?_map_update
    (fun x => { x with
      status := ReservationStatus.completed
      callDuration := some (if g.duration > 0 then g.duration else 0) })
    (fun x => rfl) r.id store r hfind
  refine ⟨?_, ?_, ?_, rfl, rfl⟩
  · rw [hg]
  · rw [hg]
    show List.find? (fun x => x.id = r.id) (cleanupCallSave g store).2 = _
    rw [hs, hclamp]
    exact h2
  · rw [hg]
    simp [cleanupCallSave]

set_option maxRecDepth 8192 in
theorem deadline_enforcement_witness :
    ({ activeCall := some 7, callDuration := 120, duration := 120,
       callStartTime := some 0, callTimer := true,
       recoveredFromRefresh := false, hasInitiallyLoaded := true } : GuardState).activeCall
        = some res7.id ∧
    List.find? (fun x => x.id = res7.id) [{ res7 with status := ReservationStatus.ongoing }]
        = some { res7 with status := ReservationStatus.ongoing } ∧
    (deadlinePollTick
        { activeCall := some 7, callDuration := 120, duration := 120,
          callStartTime := some 0, callTimer := true,
          recoveredFromRefresh := false, hasInitiallyLoaded := true }
        [{ res7 with status := ReservationStatus.ongoing }]
        { date := "2026-10-12", hour := 10, minute := 5, second := 30 }
        CallStatus.open_).2.2 = true := by
  have h := deadline_enforcement
    { activeCall := some 7, callDuration := 120, duration := 120,
      callStartTime := some 0, callTimer := true,
      recoveredFromRefresh := false, hasInitiallyLoaded := true }
    [{ res7 with status := ReservationStatus.ongoing }]
    { date := "2026-10-12", hour := 10, minute := 5, second := 30 }
    { res7 with status := ReservationStatus.ongoing }
    rfl (by decide) rfl (by decide)
  exact ⟨rfl, by decide, h.1⟩

/-- Claim C5: `handleStartCall` writes the reservation status "ongoing"
to the store immediately before issuing the dial (the first two observable
events, in order); if the dial fails it reverts the reservation to
"scheduled", unbinds the call and surfaces an alert; and in both outcomes
the reservation is never left "ongoing" without an outstanding call
attempt — it ends "ongoing" exactly when the guard holds it as the active
call. -/
theorem start_call_two_phase (g : GuardState) (store : Store) (r : CallReservation)
    (p : String) (isInit initOk dialOk : Bool) (nowMs : Nat)
    (hphone : r.phoneNumber = some p)
    (hinit : isInit = true ∨ initOk = true)
    (hfind : List.find? (fun x => x.id = r.id) store = some r) :
    ((handleStartCall g store r isInit initOk dialOk nowMs).2.2.take 2 =
      [GuardEvent.storeWrite r.id ReservationStatus.ongoing, GuardEvent.dial p]) ∧
    (dialOk = true →
      List.find? (fun x => x.id = r.id)
          (handleStartCall g store r isInit initOk dialOk nowMs).2.1 =
        some { r with status := ReservationStatus.ongoing } ∧
      (handleStartCall g store r isInit initOk dialOk nowMs).1.activeCall = some r.id) ∧
    (dialOk = false →
      List.find? (fun x => x.id = r.id)
          (handleStartCall g store r isInit initOk dialOk nowMs).2.1 =
        some { r with status := ReservationStatus.scheduled } ∧
      (handleStartCall g store r isInit initOk dialOk nowMs).1.activeCall = none ∧
      GuardEvent.alerted "Failed to establish call. Please try again." ∈
        (handleStartCall g store r isInit initOk dialOk nowMs).2.2) := by
  have hguard : (!isInit && !initOk) = false := by
    rcases hinit with h | h <;> simp [h]
  have h1 := find?_map_update (fun x => { x with status := ReservationStatus.ongoing })
    (fun x => rfl) r.id store r hfind
  have h2 := find?_map_update (fun x => { x with status := ReservationStatus.scheduled })
    (fun x => rfl) r.id (updateStatus store r.id ReservationStatus.ongoing)
    { r with status := ReservationStatus.ongoing } (by exact h1)
  cases dialOk with
  | true =>
      have hH : handleStartCall g store r isInit initOk true nowMs =
          ({ g with
              activeCall := some r.id
              callDuration := 0
              duration := 0
              callStartTime := some nowMs },
           updateStatus store r.id ReservationStatus.ongoing,
           [GuardEvent.storeWrite r.id ReservationStatus.ongoing, GuardEvent.dial p]) := by
        simp [handleStartCall, hphone, hguard, updateStatus]
      refine ⟨by simp [hH], ?_, ?_⟩
      · intro _
        exact ⟨by rw [hH]; exact h1, by simp [hH]⟩
      · intro h; simp at h
  | false =>
      have hH : handleStartCall g store r isInit initOk false nowMs =
          ({ g with
              activeCall := none
              callDuration := 0
              duration := 0
              callStartTime := none },
           updateStatus (updateStatus store r.id ReservationStatus.ongoing) r.id
             ReservationStatus.scheduled,
           [GuardEvent.storeWrite r.id ReservationStatus.ongoing, GuardEvent.dial p,
            GuardEvent.storeWrite r.id ReservationStatus.scheduled,
            GuardEvent.alerted "Failed to establish call. Please try again."]) := by
        simp [handleStartCall, hphone, hguard, updateStatus]
      refine ⟨by simp [hH], ?_, ?_⟩
      · intro h; simp at h
      · intro _
        exact ⟨by rw [hH]; exact h2, by simp [hH], by simp [hH]⟩

theorem start_call_two_phase_witness :
    res7.phoneNumber = some "+15551234567" ∧
    ((handleStartCall idleGuard [res7] res7 true true false 0).2.2.take 2 =
      [GuardEvent.storeWrite res7.id ReservationStatus.ongoing,
       GuardEvent.dial "+15551234567"]) ∧
    List.find? (fun x => x.id = res7.id)
        (handleStartCall idleGuard [res7] res7 true true false 0).2.1 =
      some { res7 with status := ReservationStatus.scheduled } ∧
    (handleStartCall idleGuard [res7] res7 true true false 0).1.activeCall = none :=
  have h := start_call_two_phase idleGuard [res7] res7 "+15551234567" true true false 0
    rfl (Or.inl rfl) rfl
  ⟨rfl, h.1, (h.2.2 rfl).1, (h.2.2 rfl).2.1⟩

/-- Claim C6: when the refresh recovery runs during initialization (first
load, device initialized) and the store reports a reservation with status
"ongoing", that reservation is written back "completed" with its known
call duration preserved (0 when unknown), every other reservation is kept,
the recovery flag is raised, and the guard starts no call in the process
(the active-call binding is untouched). -/
theorem refresh_recovery_completes_ongoing (g : GuardState) (store : Store)
    (r : CallReservation)
    (hload : g.hasInitiallyLoaded = false)
    (hfind : List.find? (fun x => x.status = ReservationStatus.ongoing) store = some r) :
    ({ r with
        status := ReservationStatus.completed
        callDuration := some (r.callDuration.getD 0) } ∈
      (recoverFromRefresh g store true).2) ∧
    (recoverFromRefresh g store true).1.recoveredFromRefresh = true ∧
    (recoverFromRefresh g store true).1.hasInitiallyLoaded = true ∧
    (recoverFromRefresh g store true).1.activeCall = g.activeCall ∧
    (∀ x ∈ store, x.id ≠ r.id → x ∈ (recoverFromRefresh g store true).2) := by
  have hrec : recoverFromRefresh g store true =
      ({ g with recoveredFromRefresh := true, hasInitiallyLoaded := true },
       updateStatusDuration store r.id ReservationStatus.completed
         (r.callDuration.getD 0)) := by
    simp [recoverFromRefresh, hload, hfind]
  have hr : r ∈ store := List.mem_of_find?_eq_some hfind
  refine ⟨?_, by simp [hrec], by simp [hrec], by simp [hrec], ?_⟩
  · rw [hrec]
    have hm := List.mem_map_of_mem
      (fun y => if y.id = r.id then
        { y with
          status := ReservationStatus.completed
          callDuration := some (r.callDuration.getD 0) } else y) hr
    simp only [updateStatusDuration]
    simpa using hm
  · intro x hx hne
    rw [hrec]
    exact mem_map_update_of_ne
      (fun y => { y with
        status := ReservationStatus.completed
        callDuration := some (r.callDuration.getD 0) }) r.id x store hx hne

theorem refresh_recovery_completes_ongoing_witness :
    idleGuard.hasInitiallyLoaded = false ∧
    ({ res7 with
        status := ReservationStatus.completed
        callDuration := some 42 } ∈
      (recoverFromRefresh idleGuard
        [{ res7 with status := ReservationStatus.ongoing, callDuration := some 42 }]
        true).2) ∧
    (recoverFromRefresh idleGuard
      [{ res7 with status := ReservationStatus.ongoing, callDuration := some 42 }]
      true).1.recoveredFromRefresh = true :=
  have h := refresh_recovery_completes_ongoing idleGuard
    [{ res7 with status := ReservationStatus.ongoing, callDuration := some 42 }]
    { res7 with status := ReservationStatus.ongoing, callDuration := some 42 }
    rfl rfl
  ⟨rfl, h.1, h.2.1⟩
